import Mathlib

/-!
# Verification of the n8n-workflows indexing-and-search engine

A shallow embedding, in Lean, of the core of the repository (document
analyzer, index store with its FTS5 shadow, indexing pipeline, query
engine, similarity engine), translated from `src/database.js`,
`src/http-server.js` and the MCP server, together with theorems settling
the specification claims about them.

JavaScript strings are modeled as Lean `String`s operated on through
their character lists; JavaScript numbers appearing in the similarity
math are modeled as `Option ℚ` where `none` stands for NaN (the only
non-finite value these computations can produce, via `0/0`).
-/

namespace NW

/-! ## String helpers (JS string primitives used by the source) -/

/-- `isPrefixL pat s`: does `s` start with `pat`? -/
def isPrefixL : List Char → List Char → Bool
  | [], _ => true
  | _ :: _, [] => false
  | a :: as, b :: bs => a = b && isPrefixL as bs

/-- `containsL s pat`: JS `s.includes(pat)` on character lists. -/
def containsL : List Char → List Char → Bool
  | [], pat => pat.isEmpty
  | s@(_ :: rest), pat => isPrefixL pat s || containsL rest pat

/-- JS `String.prototype.includes`. -/
def strContains (s pat : String) : Bool :=
  containsL s.data pat.data

/-- JS `String.prototype.replace` with a string (or literal-regex) pattern:
replaces the first occurrence only. -/
def replaceFirstL (pat rep : List Char) : List Char → List Char
  | [] => if pat.isEmpty then rep else []
  | s@(c :: rest) =>
    if isPrefixL pat s then rep ++ s.drop pat.length
    else c :: replaceFirstL pat rep rest

/-- JS `s.replace(pat, rep)` (first occurrence; `pat` taken literally). -/
def replaceFirst (s pat rep : String) : String :=
  String.mk (replaceFirstL pat.data rep.data s.data)

/-- JS `s.split(sep)` for a single-character separator. -/
def splitOnCharL (sep : Char) : List Char → List (List Char)
  | [] => [[]]
  | c :: rest =>
    let r := splitOnCharL sep rest
    if c = sep then [] :: r
    else
      match r with
      | [] => [[c]]
      | h :: t => (c :: h) :: t

/-- JS `s.split(sep)` for a single-character separator, on `String`. -/
def splitOnChar (s : String) (sep : Char) : List String :=
  (splitOnCharL sep s.data).map String.mk

/-- JS `s.charAt(0).toUpperCase() + s.slice(1)`. -/
def capitalizeJS (s : String) : String :=
  match s.data with
  | [] => ""
  | c :: rest => String.mk (Char.toUpper c :: rest)

/-- JS whitespace test for the characters `trim` strips in this corpus. -/
def isSpaceChar (c : Char) : Bool :=
  c = ' ' || c = '\t' || c = '\n' || c = '\r'

/-- JS `String.prototype.trim`. -/
def trimStr (s : String) : String :=
  String.mk (((s.data.dropWhile isSpaceChar).reverse.dropWhile isSpaceChar).reverse)

/-- JS `s.toLowerCase()` (ASCII, as used by `formatWorkflowName`). -/
def toLowerStr (s : String) : String :=
  String.mk (s.data.map Char.toLower)

/-- JS `/^\d+$/.test(s)` guarded by truthiness of `s`. -/
def isDigitStr (s : String) : Bool :=
  !s.data.isEmpty && s.data.all Char.isDigit

/-- Strict lexicographic order on character lists (SQLite text ordering
for the ASCII data produced by the analyzer). -/
def strLtL : List Char → List Char → Bool
  | [], [] => false
  | [], _ :: _ => true
  | _ :: _, [] => false
  | a :: as, b :: bs => if a = b then strLtL as bs else decide (a < b)

/-! ## Document analyzer (`src/database.js`) -/

/-- A workflow node as consumed by `analyzeNodes`: only its `type` string is
read (`node.type || ''`, so an absent type is the empty string). -/
structure Node where
  type : String
deriving Repr, DecidableEq

/-- Insertion-ordered add of JS `Set.prototype.add` (as observed through
`Array.from`). -/
def setAdd (l : List String) (s : String) : List String :=
  if l.contains s then l else l ++ [s]

/-- One iteration of the `nodes.forEach` body of `analyzeNodes`
(`src/database.js:197-219`): the state is the integrations set (in insertion
order) and the current `triggerType`. -/
def analyzeNodesStep (st : List String × String) (node : Node) : List String × String :=
  let nodeType := node.type
  let ints :=
    if strContains nodeType "." then
      let parts := splitOnChar nodeType '.'
      if 2 ≤ parts.length then
        let integration := parts.getD 1 ""
        if integration ≠ "core" ∧ integration ≠ "base" then
          setAdd st.1 (capitalizeJS integration)
        else st.1
      else st.1
    else st.1
  let trig :=
    if strContains nodeType "webhook" then "Webhook"
    else if strContains nodeType "cron" || strContains nodeType "schedule" then "Scheduled"
    else if strContains nodeType "trigger" then "Triggered"
    else st.2
  (ints, trig)

/-- `analyzeNodes` (`src/database.js:193-222`): returns the integrations (as
`Array.from` of the JS `Set`, i.e. in insertion order) and the trigger type,
starting from `triggerType = 'Manual'`. -/
def analyzeNodes (nodes : List Node) : List String × String :=
  nodes.foldl analyzeNodesStep ([], "Manual")

/-- The integrations component of `analyzeNodes`. -/
def analyzeNodesIntegrations (nodes : List Node) : List String :=
  (analyzeNodes nodes).1

/-- The `triggerType` component of `analyzeNodes`. -/
def analyzeNodesTriggerType (nodes : List Node) : String :=
  (analyzeNodes nodes).2

/-- The complexity classification of `analyzeWorkflow`
(`src/database.js:169-176`). -/
def analyzeComplexity (nodeCount : Nat) : String :=
  if nodeCount ≤ 5 then "low"
  else if nodeCount ≤ 15 then "medium"
  else "high"

/-- `getComplexityLevel` of the MCP server (`mcp-server`, helper methods). -/
def getComplexityLevel (nodeCount : Nat) : String :=
  if nodeCount ≤ 5 then "low"
  else if nodeCount ≤ 15 then "medium"
  else "high"

/-! ## Claim-side reading of the trigger classification (spec section 4.1) -/

/-- Does a node type string match any trigger category of the scan in
`analyzeNodes`? -/
def nodeMatchesTrigger (t : String) : Bool :=
  strContains t "webhook" || strContains t "cron" ||
    strContains t "schedule" || strContains t "trigger"

/-- The category a single matching node is classified into, under the per-node
check order webhook, then cron/schedule, then trigger. -/
def classifyTriggerNode (t : String) : String :=
  if strContains t "webhook" then "Webhook"
  else if strContains t "cron" || strContains t "schedule" then "Scheduled"
  else "Triggered"

/-- The trigger type as the claim states it (spec wording, for the refinement
comparison): scan nodes in array order, the FIRST matching node wins, `Manual`
when none matches. -/
def specFirstMatchTriggerType (nodes : List Node) : String :=
  match nodes.find? (fun n => nodeMatchesTrigger n.type) with
  | some n => classifyTriggerNode n.type
  | none => "Manual"

/-- The trigger component of one scan step: a matching node overwrites the
accumulator with its own category; a non-matching node leaves it unchanged. -/
theorem analyzeNodesStep_trigger (st : List String × String) (n : Node) :
    (analyzeNodesStep st n).2 =
      if nodeMatchesTrigger n.type then classifyTriggerNode n.type else st.2 := by
  unfold analyzeNodesStep nodeMatchesTrigger classifyTriggerNode
  by_cases h1 : strContains n.type "webhook" <;>
    by_cases h2 : strContains n.type "cron" <;>
      by_cases h3 : strContains n.type "schedule" <;>
        by_cases h4 : strContains n.type "trigger" <;>
          simp [h1, h2, h3, h4]

/-- The scan of `analyzeNodes` leaves, in the trigger accumulator, the category
of the LAST matching node. -/
theorem analyzeNodes_trigger_foldl (nodes : List Node) (st : List String × String) :
    (nodes.foldl analyzeNodesStep st).2 =
      match nodes.reverse.find? (fun n => nodeMatchesTrigger n.type) with
      | some n => classifyTriggerNode n.type
      | none => st.2 := by
  induction nodes generalizing st with
  | nil => simp
  | cons n ns ih =>
    rw [List.foldl_cons, ih]
    rw [List.reverse_cons, List.find?_append]
    cases hfind : ns.reverse.find? (fun n => nodeMatchesTrigger n.type) with
    | some m => simp
    | none =>
      simp only [Option.none_orElse, List.find?_singleton]
      by_cases hm : nodeMatchesTrigger n.type
      · simp [hm, analyzeNodesStep_trigger]
      · simp [hm, analyzeNodesStep_trigger]

/-! ## Claim-side characterization of the integrations scan -/

/-- Membership through a JS `Set.add`. -/
theorem mem_setAdd {l : List String} {x s : String} (h : s ∈ setAdd l x) :
    s ∈ l ∨ s = x := by
  unfold setAdd at h
  split at h
  · exact Or.inl h
  · rcases List.mem_append.mp h with h1 | h1
    · exact Or.inl h1
    · simp only [List.mem_singleton] at h1
      exact Or.inr h1

/-- Every integration accumulated by the scan either was already in the
accumulator or is the title-cased second dot-segment of some node of the list,
a segment that is neither `core` nor `base`. -/
theorem mem_analyzeNodes_foldl (nodes : List Node) (st : List String × String)
    (s : String) (h : s ∈ (nodes.foldl analyzeNodesStep st).1) :
    s ∈ st.1 ∨ ∃ n ∈ nodes,
      strContains n.type "." = true ∧
      2 ≤ (splitOnChar n.type '.').length ∧
      ((splitOnChar n.type '.').getD 1 "") ≠ "core" ∧
      ((splitOnChar n.type '.').getD 1 "") ≠ "base" ∧
      s = capitalizeJS ((splitOnChar n.type '.').getD 1 "") := by
  induction nodes generalizing st with
  | nil =>
    simp only [List.foldl_nil] at h
    exact Or.inl h
  | cons n ns ih =>
    rw [List.foldl_cons] at h
    rcases ih _ h with hmem | ⟨m, hm, rest⟩
    · unfold analyzeNodesStep at hmem
      simp only at hmem
      split at hmem
      · split at hmem
        · split at hmem
          · rcases mem_setAdd hmem with h1 | h1
            · exact Or.inl h1
            · rename_i hdot hlen hcb
              exact Or.inr ⟨n, List.mem_cons_self n ns, hdot, hlen, hcb.1, hcb.2, h1⟩
          · exact Or.inl hmem
        · exact Or.inl hmem
      · exact Or.inl hmem
    · exact Or.inr ⟨m, List.mem_cons_of_mem n hm, rest⟩

/-! ## Claim C2 -/

/-- C2, counterexample: on the node list `[webhook, cron]` the claimed
first-match-wins scan would answer `Webhook` (the webhook node is first, and
also highest priority), but `analyzeNodes` answers `Scheduled`, because every
later matching node overwrites the accumulator. -/
theorem c2_counterexample :
    analyzeNodesTriggerType [⟨"webhook"⟩, ⟨"cron"⟩] = "Scheduled" ∧
    specFirstMatchTriggerType [⟨"webhook"⟩, ⟨"cron"⟩] = "Webhook" ∧
    analyzeNodesTriggerType [⟨"webhook"⟩, ⟨"cron"⟩] ≠
      specFirstMatchTriggerType [⟨"webhook"⟩, ⟨"cron"⟩] := by
  decide

/-- C2, amended: the analyzer scans the nodes in array order and the LAST
matching node wins, each node being classified under the per-node priority
webhook, then cron/schedule, then trigger; `Manual` when no node matches. -/
theorem c2_amended (nodes : List Node) :
    analyzeNodesTriggerType nodes =
      match nodes.reverse.find? (fun n => nodeMatchesTrigger n.type) with
      | some n => classifyTriggerNode n.type
      | none => "Manual" :=
  analyzeNodes_trigger_foldl nodes ([], "Manual")

/-! ## Claim C4 -/

/-- C4, counterexample: a document consisting of one start node, of standard
type `n8n-nodes-base.start`, is analyzed to the integrations set `["Start"]`:
the structural category `start` (title-cased by the scan) appears, because
`analyzeNodes` excludes only the segments `core` and `base`. -/
theorem c4_counterexample :
    analyzeNodesIntegrations [⟨"n8n-nodes-base.start"⟩] = ["Start"] ∧
    "Start" ∈ analyzeNodesIntegrations [⟨"n8n-nodes-base.start"⟩] ∧
    "If" ∈ analyzeNodesIntegrations [⟨"n8n-nodes-base.if"⟩] := by
  decide

/-- C4, amended: every member of the integrations set produced by
`analyzeNodes` is the title-cased second dot-segment of the type string of some
node of the document, and only the segments `core` and `base` are excluded;
structural/control categories (start, no-op, code, set, conditional, merge,
switch) are not filtered and appear whenever such node types occur. -/
theorem c4_amended (nodes : List Node) (s : String)
    (h : s ∈ analyzeNodesIntegrations nodes) :
    ∃ n ∈ nodes,
      strContains n.type "." = true ∧
      2 ≤ (splitOnChar n.type '.').length ∧
      ((splitOnChar n.type '.').getD 1 "") ≠ "core" ∧
      ((splitOnChar n.type '.').getD 1 "") ≠ "base" ∧
      s = capitalizeJS ((splitOnChar n.type '.').getD 1 "") := by
  rcases mem_analyzeNodes_foldl nodes ([], "Manual") s h with h1 | h1
  · simp at h1
  · exact h1

/-- C4, witness: the amended theorem applied to the one-node document
`[n8n-nodes-base.slack]` and its analyzed integration `Slack`. -/
theorem c4_witness :
    "Slack" ∈ analyzeNodesIntegrations [Node.mk "n8n-nodes-base.slack"] ∧
    ∃ n ∈ [Node.mk "n8n-nodes-base.slack"],
      strContains n.type "." = true ∧
      2 ≤ (splitOnChar n.type '.').length ∧
      ((splitOnChar n.type '.').getD 1 "") ≠ "core" ∧
      ((splitOnChar n.type '.').getD 1 "") ≠ "base" ∧
      "Slack" = capitalizeJS ((splitOnChar n.type '.').getD 1 "") :=
  ⟨by decide, c4_amended [Node.mk "n8n-nodes-base.slack"] "Slack" (by decide)⟩

/-! ## Claim C6 -/

/-- C6, confirmed: in both implementations (the inline classification of
`analyzeWorkflow` and the MCP server's `getComplexityLevel`), complexity is
`low` iff `node_count ≤ 5`, `medium` iff `6 ≤ node_count ≤ 15`, and `high` iff
`node_count > 15`. -/
theorem c6_confirmed (n : Nat) :
    (analyzeComplexity n = "low" ↔ n ≤ 5) ∧
    (analyzeComplexity n = "medium" ↔ 6 ≤ n ∧ n ≤ 15) ∧
    (analyzeComplexity n = "high" ↔ 15 < n) ∧
    getComplexityLevel n = analyzeComplexity n := by
  unfold analyzeComplexity getComplexityLevel
  split_ifs with h1 h2 <;> refine ⟨?_, ?_, ?_, rfl⟩ <;> simp +decide <;> omega

/-! ## The document record and the analyzer (`analyzeWorkflow`) -/

/-- A row of the `workflows` table (`createTables`, `src/database.js:46-64`).
The `integrations` and `tags` columns hold `JSON.stringify` of string arrays;
they are modeled as the lists those columns encode. -/
structure WorkflowRow where
  filename : String
  name : String
  workflow_id : String
  active : Bool
  description : String
  trigger_type : String
  complexity : String
  node_count : Nat
  integrations : List String
  tags : List String
  created_at : String
  updated_at : String
  file_hash : String
  file_size : Nat
deriving Repr, DecidableEq

/-- The acronym table of `formatWorkflowName` (`src/database.js:123-132`). -/
def specialTerm (lower : String) : Option String :=
  if lower = "http" then some "HTTP"
  else if lower = "api" then some "API"
  else if lower = "webhook" then some "Webhook"
  else if lower = "automation" then some "Automation"
  else if lower = "automate" then some "Automate"
  else if lower = "scheduled" then some "Scheduled"
  else if lower = "triggered" then some "Triggered"
  else if lower = "manual" then some "Manual"
  else none

/-- `formatWorkflowName` (`src/database.js:112-136`): drop `.json`, split on
underscores, drop a leading all-digit part, then title-case each part through
the acronym table. -/
def formatWorkflowName (filename : String) : String :=
  let name := replaceFirst filename ".json" ""
  let parts := splitOnChar name '_'
  let startIndex := if isDigitStr (parts.getD 0 "") then 1 else 0
  let cleanParts := parts.drop startIndex
  String.intercalate " " (cleanParts.map (fun part =>
    match specialTerm (toLowerStr part) with
    | some t => t
    | none => capitalizeJS part))

/-- `generateDescription` (`src/database.js:224-247`). -/
def generateDescription (node_count : Nat) (complexity : String)
    (triggerType : String) (integrations : List String) : String :=
  let p1 := if triggerType ≠ "Manual" then triggerType ++ " workflow" else "Manual workflow"
  let rest :=
    if 0 < integrations.length then
      let ilist := integrations.take 3
      let ilist :=
        if 3 < integrations.length then
          ilist ++ ["+" ++ toString (integrations.length - 3) ++ " more"]
        else ilist
      ["integrating " ++ String.intercalate ", " ilist]
    else []
  String.intercalate " " ([p1] ++ rest ++
    ["with " ++ toString node_count ++ " nodes (" ++ complexity ++ " complexity)"])

/-- The fields of a parsed corpus document that `analyzeWorkflow` reads, with
the `|| default` fallbacks of `src/database.js:145-157` already applied except
for `name`, whose absence (`data.name?`) is kept as `none`. -/
structure WorkflowData where
  id : String
  name : Option String
  active : Bool
  nodes : List Node
  tags : List String
  createdAt : String
  updatedAt : String
deriving Repr, DecidableEq

/-- A corpus file as seen by `analyzeWorkflow`: its basename, the outcome of
`fs.readJsonSync` (`none` models a read/parse failure, which the surrounding
`try` turns into a `null` result), its md5 hash and its byte size. Identical
bytes give identical `parsed`, `file_hash` and `file_size`. -/
structure CorpusFile where
  name : String
  parsed : Option WorkflowData
  file_hash : String
  file_size : Nat
deriving Repr, DecidableEq

/-- `analyzeWorkflow` (`src/database.js:138-191`): `null` (here `none`) on a
parse failure, otherwise the fully analyzed record. -/
def analyzeWorkflow (f : CorpusFile) : Option WorkflowRow :=
  f.parsed.map fun data =>
    let baseName := formatWorkflowName f.name
    let name :=
      match data.name with
      | some s =>
        let jsonName := trimStr s
        if jsonName ≠ "" ∧ jsonName ≠ replaceFirst f.name ".json" "" ∧
            isPrefixL "My workflow".data jsonName.data = false then jsonName
        else baseName
      | none => baseName
    let nodeCount := data.nodes.length
    let complexity := analyzeComplexity nodeCount
    let res := analyzeNodes data.nodes
    { filename := f.name
      name := name
      workflow_id := data.id
      active := data.active
      description := generateDescription nodeCount complexity res.2 res.1
      trigger_type := res.2
      complexity := complexity
      node_count := nodeCount
      integrations := res.1
      tags := data.tags
      created_at := data.createdAt
      updated_at := data.updatedAt
      file_hash := f.file_hash
      file_size := f.file_size }

/-! ## The index store and its FTS5 shadow (`createTables`, `upsertWorkflow`) -/

/-- `JSON.stringify` of one string (the analyzer never produces quotes or
backslashes in these fields, so no escaping arises). -/
def jsonStringOf (s : String) : String := "\"" ++ s ++ "\""

/-- `JSON.stringify` of an array of strings. -/
def jsonArrayOf (l : List String) : String :=
  "[" ++ String.intercalate "," (l.map jsonStringOf) ++ "]"

/-- A row of the `workflows_fts` FTS5 shadow table
(`createTables`, `src/database.js:67-75`). -/
structure FtsRow where
  filename : String
  name : String
  description : String
  integrations : String
  tags : String
deriving Repr, DecidableEq

/-- The shadow row the `workflows_ai` trigger inserts for a record. -/
def shadowOf (w : WorkflowRow) : FtsRow :=
  { filename := w.filename
    name := w.name
    description := w.description
    integrations := jsonArrayOf w.integrations
    tags := jsonArrayOf w.tags }

/-- The store: the `workflows` table (UNIQUE on filename) and the
`workflows_fts` shadow table, which has no uniqueness constraint. -/
structure DBState where
  workflows : List WorkflowRow
  shadow : List FtsRow
deriving Repr, DecidableEq

/-- `upsertWorkflow` (`src/database.js:293-319`), an
`INSERT OR REPLACE INTO workflows ...`, under SQLite's semantics with the
default `recursive_triggers = OFF` (the pragma is never enabled in
`initDatabase`): the row conflicting on the UNIQUE `filename` is deleted
internally WITHOUT firing the `workflows_ad` AFTER DELETE trigger, and the
insertion of the new row fires the `workflows_ai` AFTER INSERT trigger, which
appends a fresh shadow row; the `workflows_au` AFTER UPDATE trigger never
fires since no UPDATE statement runs. -/
def upsertWorkflow (db : DBState) (w : WorkflowRow) : DBState :=
  { workflows := db.workflows.filter (fun r => r.filename ≠ w.filename) ++ [w]
    shadow := db.shadow ++ [shadowOf w] }

/-- A `DELETE FROM workflows WHERE filename = ?`: the `workflows_ad` trigger
removes the shadow rows of that filename. -/
def deleteWorkflow (db : DBState) (fn : String) : DBState :=
  { workflows := db.workflows.filter (fun r => r.filename ≠ fn)
    shadow := db.shadow.filter (fun r => r.filename ≠ fn) }

/-- `getWorkflowByFilename` (`src/database.js:289-291`). -/
def getWorkflowByFilename (db : DBState) (fn : String) : Option WorkflowRow :=
  db.workflows.find? (fun r => r.filename = fn)

/-- Does a shadow row match an FTS query consisting of one token that occurs
verbatim in a column (the case the shadow-consistency claim is about)? -/
def ftsRowHasToken (r : FtsRow) (tok : String) : Bool :=
  strContains r.filename tok || strContains r.name tok ||
    strContains r.description tok || strContains r.integrations tok ||
    strContains r.tags tok

/-- Number of hits a full-text search for `tok` returns for filename `fn`:
shadow rows of `fn` matching the token, joined back (as in the FTS branch of
`searchWorkflows`) to a live record with that filename. -/
def ftsHitsForFilename (db : DBState) (tok fn : String) : Nat :=
  if (getWorkflowByFilename db fn).isSome then
    (db.shadow.filter (fun r => r.filename = fn && ftsRowHasToken r tok)).length
  else 0

/-! ## Claim C1 -/

/-- First indexed version of `a.json`: the token `Alphaserv` occurs only
here. -/
def c1rowOld : WorkflowRow :=
  { filename := "a.json", name := "A", workflow_id := "", active := true
    description := "Webhook workflow integrating Alphaserv with 2 nodes (low complexity)"
    trigger_type := "Webhook", complexity := "low", node_count := 2
    integrations := ["Alphaserv"], tags := [], created_at := "", updated_at := ""
    file_hash := "h1", file_size := 10 }

/-- Updated version of `a.json`, replacing `Alphaserv` by `Betaserv`. -/
def c1rowNew : WorkflowRow :=
  { c1rowOld with
    description := "Webhook workflow integrating Betaserv with 2 nodes (low complexity)"
    integrations := ["Betaserv"], file_hash := "h2" }

/-- C1, evaluation at the failing input: after upserting `a.json` and then
upserting its updated version, the `workflows` table holds exactly one live
record for `a.json` (so the replace happened), but the shadow table holds TWO
rows for it, and a full-text search for `Alphaserv` — a token unique to the
previous version — still returns a hit for `a.json`. The claim (and the
evident intent of the sync triggers of `createTables`) requires one shadow row
and zero hits: the stale shadow row survives because `INSERT OR REPLACE`'s
implicit delete fires no delete trigger. -/
theorem c1_bug_eval :
    ((upsertWorkflow (upsertWorkflow ⟨[], []⟩ c1rowOld) c1rowNew).workflows.filter
        (fun r => r.filename = "a.json")).length = 1 ∧
    getWorkflowByFilename (upsertWorkflow (upsertWorkflow ⟨[], []⟩ c1rowOld) c1rowNew)
        "a.json" = some c1rowNew ∧
    ((upsertWorkflow (upsertWorkflow ⟨[], []⟩ c1rowOld) c1rowNew).shadow.filter
        (fun r => r.filename = "a.json")).length = 2 ∧
    strContains c1rowNew.description "Alphaserv" = false ∧
    ftsHitsForFilename (upsertWorkflow (upsertWorkflow ⟨[], []⟩ c1rowOld) c1rowNew)
        "Alphaserv" "a.json" = 1 := by
  decide

/-! ## Indexing pipeline (`indexWorkflows`, `src/database.js:249-287`) -/

/-- JS `s.endsWith(pat)`. -/
def strEndsWith (s pat : String) : Bool :=
  isPrefixL pat.data.reverse s.data.reverse

/-- The counters `indexWorkflows` returns. -/
structure IndexCounters where
  processed : Nat
  skipped : Nat
  errors : Nat
  total : Nat
deriving Repr, DecidableEq

/-- `workflowFiles.filter(file => file.endsWith('.json'))`. -/
def jsonFilesOf (files : List CorpusFile) : List CorpusFile :=
  files.filter (fun f => strEndsWith f.name ".json")

/-- One iteration of the indexing loop (`src/database.js:261-284`): a failed
analysis counts an error and continues; an unchanged hash (when not forcing)
counts a skip without touching the store; otherwise the record is upserted and
counted as processed. The state is `(db, processed, skipped, errors)`. -/
def indexStep (force : Bool) :
    DBState × Nat × Nat × Nat → CorpusFile → DBState × Nat × Nat × Nat
  | (db, p, s, e), f =>
    match analyzeWorkflow f with
    | none => (db, p, s, e + 1)
    | some w =>
      match getWorkflowByFilename db f.name with
      | some existing =>
        if force = false ∧ existing.file_hash = w.file_hash then (db, p, s + 1, e)
        else (upsertWorkflow db w, p + 1, s, e)
      | none => (upsertWorkflow db w, p + 1, s, e)

/-- `indexWorkflows(forceReindex)`: fold the loop over the `.json` files of the
corpus listing and return the new store with
`{processed, skipped, errors, total}`. -/
def indexWorkflows (db : DBState) (files : List CorpusFile) (force : Bool) :
    DBState × IndexCounters :=
  let jf := jsonFilesOf files
  let r := jf.foldl (indexStep force) (db, 0, 0, 0)
  (r.1, ⟨r.2.1, r.2.2.1, r.2.2.2, jf.length⟩)

/-- Each loop iteration increments exactly one of the three counters. -/
theorem indexStep_sum (force : Bool) (st : DBState × Nat × Nat × Nat) (f : CorpusFile) :
    (indexStep force st f).2.1 + (indexStep force st f).2.2.1 + (indexStep force st f).2.2.2
      = st.2.1 + st.2.2.1 + st.2.2.2 + 1 := by
  obtain ⟨db, p, s, e⟩ := st
  simp only [indexStep]
  cases analyzeWorkflow f with
  | none => dsimp only; omega
  | some w =>
    dsimp only
    cases getWorkflowByFilename db f.name with
    | some ex =>
      dsimp only
      by_cases hc : force = false ∧ ex.file_hash = w.file_hash
      · rw [if_pos hc]; dsimp only; omega
      · rw [if_neg hc]; dsimp only; omega
    | none => dsimp only; omega

/-- Counter bookkeeping over the whole loop. -/
theorem foldl_indexStep_sum (force : Bool) (l : List CorpusFile) :
    ∀ st : DBState × Nat × Nat × Nat,
      (l.foldl (indexStep force) st).2.1 + (l.foldl (indexStep force) st).2.2.1 +
          (l.foldl (indexStep force) st).2.2.2
        = st.2.1 + st.2.2.1 + st.2.2.2 + l.length := by
  induction l with
  | nil => intro st; simp
  | cons f fs ih =>
    intro st
    rw [List.foldl_cons, ih (indexStep force st f), indexStep_sum]
    simp only [List.length_cons]
    omega

/-- Each loop iteration attributes its file to the error counter exactly when
the analysis fails, and to processed-or-skipped exactly when it succeeds. -/
theorem indexStep_errCount (force : Bool) (st : DBState × Nat × Nat × Nat) (f : CorpusFile) :
    (indexStep force st f).2.2.2
        = st.2.2.2 + (if (analyzeWorkflow f).isNone then 1 else 0) ∧
    (indexStep force st f).2.1 + (indexStep force st f).2.2.1
        = st.2.1 + st.2.2.1 + (if (analyzeWorkflow f).isSome then 1 else 0) := by
  obtain ⟨db, p, s, e⟩ := st
  simp only [indexStep]
  cases analyzeWorkflow f with
  | none => dsimp only; simp; all_goals omega
  | some w =>
    dsimp only
    cases getWorkflowByFilename db f.name with
    | some ex =>
      dsimp only
      by_cases hc : force = false ∧ ex.file_hash = w.file_hash
      · rw [if_pos hc]; dsimp only; simp; all_goals omega
      · rw [if_neg hc]; dsimp only; simp; all_goals omega
    | none => dsimp only; simp; all_goals omega

/-- Error and success bookkeeping over the whole loop. -/
theorem foldl_indexStep_errCount (force : Bool) (l : List CorpusFile) :
    ∀ st : DBState × Nat × Nat × Nat,
      (l.foldl (indexStep force) st).2.2.2
          = st.2.2.2 + (l.filter (fun f => (analyzeWorkflow f).isNone)).length ∧
      (l.foldl (indexStep force) st).2.1 + (l.foldl (indexStep force) st).2.2.1
          = st.2.1 + st.2.2.1 + (l.filter (fun f => (analyzeWorkflow f).isSome)).length := by
  induction l with
  | nil => intro st; simp
  | cons f fs ih =>
    intro st
    rw [List.foldl_cons]
    obtain ⟨ih1, ih2⟩ := ih (indexStep force st f)
    obtain ⟨hs1, hs2⟩ := indexStep_errCount force st f
    cases hf : analyzeWorkflow f with
    | none =>
      rw [hf] at hs1 hs2
      simp only [Option.isNone_none, Option.isSome_none] at hs1 hs2
      constructor
      · rw [ih1, hs1, List.filter_cons]
        simp [hf]
        all_goals omega
      · rw [ih2, hs2, List.filter_cons]
        simp [hf]
        all_goals omega
    | some w =>
      rw [hf] at hs1 hs2
      simp only [Option.isNone_some, Option.isSome_some] at hs1 hs2
      constructor
      · rw [ih1, hs1, List.filter_cons]
        simp [hf]
        all_goals omega
      · rw [ih2, hs2, List.filter_cons]
        simp [hf]
        all_goals omega

/-- The analyzed record carries the file's basename and md5 hash. -/
theorem analyzeWorkflow_fields (f : CorpusFile) (w : WorkflowRow)
    (h : analyzeWorkflow f = some w) :
    w.filename = f.name ∧ w.file_hash = f.file_hash := by
  cases hp : f.parsed with
  | none => rw [analyzeWorkflow, hp] at h; cases h
  | some d =>
    rw [analyzeWorkflow, hp] at h
    simp only [Option.map_some'] at h
    injection h with h
    subst h
    exact ⟨rfl, rfl⟩

/-- Replacing the conflicting row and appending the new one makes the new row
the unique `find?` result for its own filename. -/
theorem find?_upsert_self (w : WorkflowRow) :
    ∀ l : List WorkflowRow,
      (l.filter (fun r => r.filename ≠ w.filename) ++ [w]).find?
          (fun r => r.filename = w.filename) = some w := by
  intro l
  induction l with
  | nil => simp
  | cons a as ih =>
    rw [List.filter_cons]
    by_cases ha : a.filename = w.filename
    · have hcond : ¬ (decide (a.filename ≠ w.filename) = true) := by simp [ha]
      rw [if_neg hcond]
      exact ih
    · have hcond : decide (a.filename ≠ w.filename) = true := by simp [ha]
      have hd : decide (a.filename = w.filename) = false := by simp [ha]
      rw [if_pos hcond, List.cons_append, List.find?_cons, hd]
      exact ih

/-- Replacing a row and appending the new one does not affect `find?` under
any other filename. -/
theorem find?_upsert_other (w : WorkflowRow) (fn : String) (h : ¬ fn = w.filename) :
    ∀ l : List WorkflowRow,
      (l.filter (fun r => r.filename ≠ w.filename) ++ [w]).find?
          (fun r => r.filename = fn) = l.find? (fun r => r.filename = fn) := by
  have hw : ¬ w.filename = fn := fun he => h he.symm
  intro l
  induction l with
  | nil => simp [hw]
  | cons a as ih =>
    rw [List.filter_cons]
    by_cases ha : a.filename = w.filename
    · have hafn : ¬ a.filename = fn := by rw [ha]; exact hw
      have hcond : ¬ (decide (a.filename ≠ w.filename) = true) := by simp [ha]
      have hd : decide (a.filename = fn) = false := by simp [hafn]
      rw [if_neg hcond]
      conv_rhs => rw [List.find?_cons, hd]
      exact ih
    · have hcond : decide (a.filename ≠ w.filename) = true := by simp [ha]
      rw [if_pos hcond]
      by_cases hafn : a.filename = fn
      · have hd : decide (a.filename = fn) = true := by simp [hafn]
        rw [List.cons_append, List.find?_cons, hd]
        conv_rhs => rw [List.find?_cons, hd]
      · have hd : decide (a.filename = fn) = false := by simp [hafn]
        rw [List.cons_append, List.find?_cons, hd]
        conv_rhs => rw [List.find?_cons, hd]
        exact ih

/-- After an upsert, looking the record up by its filename finds exactly the
upserted record. -/
theorem getWorkflow_upsert_self (db : DBState) (w : WorkflowRow) :
    getWorkflowByFilename (upsertWorkflow db w) w.filename = some w :=
  find?_upsert_self w db.workflows

/-- An upsert does not disturb lookups of other filenames. -/
theorem getWorkflow_upsert_other (db : DBState) (w : WorkflowRow) (fn : String)
    (h : fn ≠ w.filename) :
    getWorkflowByFilename (upsertWorkflow db w) fn = getWorkflowByFilename db fn :=
  find?_upsert_other w fn h db.workflows

/-- The indexing loop leaves lookups of filenames outside the processed list
untouched. -/
theorem foldl_indexStep_lookup_preserved (force : Bool) (l : List CorpusFile) :
    ∀ st : DBState × Nat × Nat × Nat, ∀ fn : String, (∀ g ∈ l, g.name ≠ fn) →
      getWorkflowByFilename (l.foldl (indexStep force) st).1 fn
        = getWorkflowByFilename st.1 fn := by
  induction l with
  | nil => intro st fn _; rfl
  | cons f fs ih =>
    intro st fn hne
    rw [List.foldl_cons, ih _ fn (fun g hg => hne g (List.mem_cons_of_mem f hg))]
    have hffn : fn ≠ f.name := fun he => hne f (List.mem_cons_self f fs) he.symm
    obtain ⟨db, p, s, e⟩ := st
    simp only [indexStep]
    cases hf : analyzeWorkflow f with
    | none => rfl
    | some w =>
      have hwfn := (analyzeWorkflow_fields f w hf).1
      have hfw : fn ≠ w.filename := by rw [hwfn]; exact hffn
      dsimp only
      cases hex : getWorkflowByFilename db f.name with
      | some ex =>
        dsimp only
        by_cases hc : force = false ∧ ex.file_hash = w.file_hash
        · rw [if_pos hc]
        · rw [if_neg hc]
          exact getWorkflow_upsert_other db w fn hfw
      | none => exact getWorkflow_upsert_other db w fn hfw

/-- After one indexing run, every distinctly-named file that analyzes
successfully has a live record under its filename carrying its current md5
hash (either freshly upserted, or the pre-existing record whose equal hash
justified the skip). -/
theorem foldl_indexStep_establishes (force : Bool) (l : List CorpusFile)
    (hnd : l.Pairwise (fun a b => a.name ≠ b.name)) :
    ∀ st : DBState × Nat × Nat × Nat, ∀ f ∈ l, (analyzeWorkflow f).isSome →
      ∃ r, getWorkflowByFilename (l.foldl (indexStep force) st).1 f.name = some r ∧
        r.file_hash = f.file_hash := by
  induction l with
  | nil => intro st f hf; exact absurd hf (List.not_mem_nil f)
  | cons g gs ih =>
    intro st f hf hsome
    rcases List.mem_cons.mp hf with rfl | hmem
    · have hpair : ∀ b ∈ gs, f.name ≠ b.name := (List.pairwise_cons.mp hnd).1
      rw [List.foldl_cons,
        foldl_indexStep_lookup_preserved force gs _ f.name (fun b hb => (hpair b hb).symm)]
      obtain ⟨db, p, s, e⟩ := st
      obtain ⟨w, hw⟩ := Option.isSome_iff_exists.mp hsome
      obtain ⟨hwf, hwh⟩ := analyzeWorkflow_fields f w hw
      simp only [indexStep, hw]
      cases hex : getWorkflowByFilename db f.name with
      | some ex =>
        dsimp only
        by_cases hc : force = false ∧ ex.file_hash = w.file_hash
        · rw [if_pos hc]
          exact ⟨ex, hex, by rw [hc.2, hwh]⟩
        · rw [if_neg hc]
          refine ⟨w, ?_, hwh⟩
          rw [← hwf]
          exact getWorkflow_upsert_self db w
      | none =>
        refine ⟨w, ?_, hwh⟩
        rw [← hwf]
        exact getWorkflow_upsert_self db w
    · rw [List.foldl_cons]
      exact ih (List.pairwise_cons.mp hnd).2 _ f hmem hsome

/-- When every file analyzes successfully and already has a record with its
current hash, a non-forced indexing run skips every file and leaves the store
untouched. -/
theorem foldl_indexStep_all_skip (l : List CorpusFile) :
    ∀ db p s e,
      (∀ f ∈ l, ∃ w, analyzeWorkflow f = some w ∧
        ∃ r, getWorkflowByFilename db f.name = some r ∧ r.file_hash = f.file_hash) →
      l.foldl (indexStep false) (db, p, s, e) = (db, p, s + l.length, e) := by
  induction l with
  | nil => intro db p s e _; simp
  | cons f fs ih =>
    intro db p s e hinv
    obtain ⟨w, hw, r, hr, hrh⟩ := hinv f (List.mem_cons_self f fs)
    have hwh := (analyzeWorkflow_fields f w hw).2
    have hstep : indexStep false (db, p, s, e) f = (db, p, s + 1, e) := by
      simp only [indexStep, hw, hr]
      rw [if_pos ⟨trivial, by rw [hrh, hwh]⟩]
    rw [List.foldl_cons, hstep,
      ih db p (s + 1) e (fun g hg => hinv g (List.mem_cons_of_mem f hg))]
    have harith : s + 1 + fs.length = s + (f :: fs).length := by
      simp only [List.length_cons]
      omega
    rw [harith]

/-! ## Claims C10, C9, C7 -/

/-- C10, confirmed: every completed indexing run counts each enumerated
`.json` file in exactly one of the three counters:
`processed + skipped + errors = total`, and `total` is the number of `.json`
files of the corpus listing. -/
theorem c10_confirmed (db : DBState) (files : List CorpusFile) (force : Bool) :
    (indexWorkflows db files force).2.processed + (indexWorkflows db files force).2.skipped +
        (indexWorkflows db files force).2.errors = (indexWorkflows db files force).2.total ∧
    (indexWorkflows db files force).2.total = (jsonFilesOf files).length := by
  refine ⟨?_, rfl⟩
  have h := foldl_indexStep_sum force (jsonFilesOf files) (db, 0, 0, 0)
  simpa using h

/-- C9, confirmed: during an indexing run, exactly the files whose analysis
fails are counted as errors, and every remaining file is still processed or
skipped — no malformed file aborts the batch, and the returned counters cover
the whole corpus. -/
theorem c9_confirmed (db : DBState) (files : List CorpusFile) (force : Bool) :
    (indexWorkflows db files force).2.errors
        = ((jsonFilesOf files).filter (fun f => (analyzeWorkflow f).isNone)).length ∧
    (indexWorkflows db files force).2.processed + (indexWorkflows db files force).2.skipped
        = ((jsonFilesOf files).filter (fun f => (analyzeWorkflow f).isSome)).length ∧
    (indexWorkflows db files force).2.total = (jsonFilesOf files).length := by
  have h := foldl_indexStep_errCount force (jsonFilesOf files) (db, 0, 0, 0)
  exact ⟨by simpa using h.1, by simpa using h.2, rfl⟩

/-- A corpus listing consisting of one unparsable file. -/
def badFile : CorpusFile :=
  { name := "bad.json", parsed := none, file_hash := "deadbeef", file_size := 3 }

/-- C7, counterexample: over the unchanged one-file corpus `[bad.json]`
(a malformed document), the second non-forced run returns `processed = 0` but
`skipped = 0 ≠ 1 = total` (the file is counted as an error again), refuting
`skipped = total` as stated. -/
theorem c7_counterexample :
    (indexWorkflows (indexWorkflows ⟨[], []⟩ [badFile] false).1 [badFile] false).2.processed = 0 ∧
    (indexWorkflows (indexWorkflows ⟨[], []⟩ [badFile] false).1 [badFile] false).2.skipped = 0 ∧
    (indexWorkflows (indexWorkflows ⟨[], []⟩ [badFile] false).1 [badFile] false).2.errors = 1 ∧
    (indexWorkflows (indexWorkflows ⟨[], []⟩ [badFile] false).1 [badFile] false).2.total = 1 ∧
    (indexWorkflows (indexWorkflows ⟨[], []⟩ [badFile] false).1 [badFile] false).2.skipped ≠
      (indexWorkflows (indexWorkflows ⟨[], []⟩ [badFile] false).1 [badFile] false).2.total := by
  decide

/-- C7, amended: for every corpus of distinctly-named files, unchanged between
two consecutive `Reindex(force=false)` calls, ALL OF WHOSE FILES ANALYZE
SUCCESSFULLY, the second call returns `processed = 0` and `skipped = total`
(in general `skipped = total − errors`). -/
theorem c7_amended (db0 : DBState) (files : List CorpusFile)
    (hok : ∀ f ∈ jsonFilesOf files, (analyzeWorkflow f).isSome)
    (hnd : (jsonFilesOf files).Pairwise (fun a b => a.name ≠ b.name)) :
    (indexWorkflows (indexWorkflows db0 files false).1 files false).2.processed = 0 ∧
    (indexWorkflows (indexWorkflows db0 files false).1 files false).2.skipped
      = (indexWorkflows (indexWorkflows db0 files false).1 files false).2.total := by
  have hinv : ∀ f ∈ jsonFilesOf files, ∃ w, analyzeWorkflow f = some w ∧
      ∃ r, getWorkflowByFilename (indexWorkflows db0 files false).1 f.name = some r ∧
        r.file_hash = f.file_hash := by
    intro f hf
    obtain ⟨w, hw⟩ := Option.isSome_iff_exists.mp (hok f hf)
    exact ⟨w, hw,
      foldl_indexStep_establishes false (jsonFilesOf files) hnd (db0, 0, 0, 0) f hf (hok f hf)⟩
  have hrun2 := foldl_indexStep_all_skip (jsonFilesOf files)
    (indexWorkflows db0 files false).1 0 0 0 hinv
  constructor
  · show ((jsonFilesOf files).foldl (indexStep false)
        ((indexWorkflows db0 files false).1, 0, 0, 0)).2.1 = 0
    rw [hrun2]
  · show ((jsonFilesOf files).foldl (indexStep false)
        ((indexWorkflows db0 files false).1, 0, 0, 0)).2.2.1 = (jsonFilesOf files).length
    rw [hrun2]
    simp

/-- A well-formed demonstration corpus document. -/
def demoData : WorkflowData :=
  { id := "w1", name := some "Demo flow", active := true,
    nodes := [⟨"n8n-nodes-base.webhook"⟩, ⟨"n8n-nodes-base.slack"⟩],
    tags := [], createdAt := "", updatedAt := "" }

/-- A well-formed demonstration corpus file. -/
def demoFile : CorpusFile :=
  { name := "0001_Slack_Automation.json", parsed := some demoData,
    file_hash := "abc123", file_size := 200 }

/-- C7, witness: the amended theorem applied to the concrete one-file corpus
`[demoFile]`, which analyzes successfully, starting from the empty store. -/
theorem c7_witness :
    (∀ f ∈ jsonFilesOf [demoFile], (analyzeWorkflow f).isSome) ∧
    (jsonFilesOf [demoFile]).Pairwise (fun a b => a.name ≠ b.name) ∧
    ((indexWorkflows (indexWorkflows ⟨[], []⟩ [demoFile] false).1 [demoFile] false).2.processed
        = 0 ∧
      (indexWorkflows (indexWorkflows ⟨[], []⟩ [demoFile] false).1 [demoFile] false).2.skipped
        = (indexWorkflows (indexWorkflows ⟨[], []⟩ [demoFile] false).1 [demoFile] false).2.total) :=
  ⟨by decide, by decide, c7_amended ⟨[], []⟩ [demoFile] (by decide) (by decide)⟩

/-! ## Similarity engine (`findSimilar` of the MCP server) -/

/-- `1 - (nodeDiff / Math.max(ref, cand))` of `findSimilar`: when both counts
are `0` the JS expression is `1 - 0/0 = NaN`, modeled as `none`; otherwise the
exact rational value. -/
def nodeCountSimilarity (refCount candCount : Nat) : Option ℚ :=
  if max refCount candCount = 0 then none
  else some (1 - (Nat.dist refCount candCount : ℚ) / (max refCount candCount : ℚ))

/-- `new Set([...refIntegrations, ...wfIntegrations])` as an insertion-ordered
dedup of the concatenation; only its size is consumed. -/
def jsSetUnion (a b : List String) : List String :=
  (a ++ b).foldl setAdd []

/-- The Jaccard similarity of the two integration lists
(`union > 0 ? intersection / union : 0`). -/
def integrationSimilarity (refI candI : List String) : ℚ :=
  let inter := (refI.filter (fun i => candI.contains i)).length
  let uni := (jsSetUnion refI candI).length
  if 0 < uni then (inter : ℚ) / (uni : ℚ) else 0

/-- `reference.trigger_type === workflow.trigger_type ? 1 : 0.5`. -/
def triggerSimilarity (refT candT : String) : ℚ :=
  if refT = candT then 1 else 1 / 2

/-- `integrationSimilarity * 0.5 + nodeCountSimilarity * 0.3 +
triggerSimilarity * 0.2`; NaN (`none`) propagates. -/
def combinedSimilarity (iSim : ℚ) (ncSim : Option ℚ) (tSim : ℚ) : Option ℚ :=
  ncSim.map (fun n => iSim * (1 / 2) + n * (3 / 10) + tSim * (1 / 5))

/-- JS `similarity >= threshold`: false whenever `similarity` is NaN. -/
def simAtLeast (sim : Option ℚ) (t : ℚ) : Bool :=
  match sim with
  | none => false
  | some v => decide (t ≤ v)

/-- JS `Math.round`: `⌊x + 1/2⌋` (half rounds toward positive infinity). The
floor of a rational is `Int.fdiv` of its numerator by its (positive)
denominator. -/
def jsRound (q : ℚ) : ℤ :=
  Int.fdiv (q + 1 / 2).num ((q + 1 / 2).den : ℤ)

/-- `Math.round(x * 100) / 100`. -/
def round2 (q : ℚ) : ℚ :=
  (jsRound (q * 100) : ℤ) / 100

/-- The combined similarity score `findSimilar` computes for one candidate. -/
def candidateScore (ref w : WorkflowRow) : Option ℚ :=
  combinedSimilarity (integrationSimilarity ref.integrations w.integrations)
    (nodeCountSimilarity ref.node_count w.node_count)
    (triggerSimilarity ref.trigger_type w.trigger_type)

/-! ## Claim C5 -/

/-- C5, counterexample: when both node counts are `0`, `findSimilar` computes
`1 - 0/0 = NaN` (modeled `none`), not `0`, the combined score is NaN too, and
`NaN >= threshold` is false, so such a candidate is dropped even at threshold
`0` — the claimed well-defined score `0` does not exist in the code. -/
theorem c5_counterexample :
    nodeCountSimilarity 0 0 ≠ some 0 ∧
    nodeCountSimilarity 0 0 = none ∧
    combinedSimilarity (integrationSimilarity [] []) (nodeCountSimilarity 0 0)
        (triggerSimilarity "Manual" "Manual") = none ∧
    simAtLeast (combinedSimilarity (integrationSimilarity [] []) (nodeCountSimilarity 0 0)
        (triggerSimilarity "Manual" "Manual")) 0 = false := by
  decide

/-- C5, amended: when the reference's and the candidate's node counts are both
`0`, `nodeCountSimilarity` is NaN (not `0`), the combined score is NaN, and the
candidate is never retained, because `NaN >= threshold` evaluates false for
every threshold (no exception is raised); candidates where some count is
positive receive a well-defined score. -/
theorem c5_amended (t iSim tSim : ℚ) (refCount candCount : Nat)
    (h1 : refCount = 0) (h2 : candCount = 0) :
    nodeCountSimilarity refCount candCount = none ∧
    combinedSimilarity iSim (nodeCountSimilarity refCount candCount) tSim = none ∧
    simAtLeast (combinedSimilarity iSim (nodeCountSimilarity refCount candCount) tSim) t
      = false := by
  subst h1
  subst h2
  exact ⟨rfl, rfl, rfl⟩

/-- C5, witness: the amended theorem at both counts `0`, threshold `0`,
integration similarity `0` and trigger similarity `1`. -/
theorem c5_witness :
    ((0 : Nat) = 0 ∧ (0 : Nat) = 0) ∧
    (nodeCountSimilarity 0 0 = none ∧
      combinedSimilarity 0 (nodeCountSimilarity 0 0) 1 = none ∧
      simAtLeast (combinedSimilarity 0 (nodeCountSimilarity 0 0) 1) 0 = false) :=
  ⟨⟨rfl, rfl⟩, c5_amended 0 0 1 0 0 rfl rfl⟩

/-! ## `findSimilar` proper -/

/-- One element of the `similarities` array `findSimilar` builds. -/
structure SimilarEntry where
  filename : String
  name : String
  similarity_score : ℚ
  shared_integrations : List String
  trigger_type : String
  node_count : Nat
deriving Repr, DecidableEq

/-- The response of `findSimilar` (reference echo, top-20 page, total count of
all qualifying candidates). -/
structure SimilarResult where
  ref_filename : String
  ref_name : String
  ref_integrations : List String
  ref_node_count : Nat
  similar_workflows : List SimilarEntry
  total_found : Nat
deriving Repr, DecidableEq

/-- The `similarities.push` body guarded by `similarity >= similarity_threshold`
(NaN compares false, so a NaN-scored candidate is never pushed). -/
def candidateEntry (ref w : WorkflowRow) (threshold : ℚ) : Option SimilarEntry :=
  match candidateScore ref w with
  | none => none
  | some sv =>
    if threshold ≤ sv then
      some { filename := w.filename
             name := w.name
             similarity_score := round2 sv
             shared_integrations := ref.integrations.filter (fun i => w.integrations.contains i)
             trigger_type := w.trigger_type
             node_count := w.node_count }
    else none

/-- The descending order on reported scores used by
`similarities.sort((a, b) => b.similarity_score - a.similarity_score)`. -/
def scoreGE (a b : SimilarEntry) : Prop :=
  b.similarity_score ≤ a.similarity_score

instance : DecidableRel scoreGE :=
  fun a b => inferInstanceAs (Decidable (b.similarity_score ≤ a.similarity_score))

instance : IsTotal SimilarEntry scoreGE :=
  ⟨fun a b => le_total b.similarity_score a.similarity_score⟩

instance : IsTrans SimilarEntry scoreGE :=
  ⟨fun _ _ _ hab hbc => le_trans hbc hab⟩

/-- `findSimilar(filename, similarity_threshold)` of the MCP server: `none`
models the thrown `Workflow not found` error; otherwise every other record is
scored, candidates reaching the threshold are kept with their rounded score
and shared integrations, sorted descending by reported score (a stable sort,
as JS `Array.prototype.sort` is), and the first 20 are returned together with
the count of all qualifying candidates. -/
def findSimilar (db : DBState) (filename : String) (threshold : ℚ) : Option SimilarResult :=
  match db.workflows.find? (fun r => r.filename = filename) with
  | none => none
  | some ref =>
    let allW := db.workflows.filter (fun r => r.filename ≠ filename)
    let sims := allW.filterMap (fun w => candidateEntry ref w threshold)
    let sorted := sims.insertionSort scoreGE
    some { ref_filename := ref.filename
           ref_name := ref.name
           ref_integrations := ref.integrations
           ref_node_count := ref.node_count
           similar_workflows := sorted.take 20
           total_found := sims.length }

/-- A candidate produces an entry exactly when its score reaches the
threshold. -/
theorem candidateEntry_isSome (ref w : WorkflowRow) (t : ℚ) :
    (candidateEntry ref w t).isSome = simAtLeast (candidateScore ref w) t := by
  unfold candidateEntry simAtLeast
  cases candidateScore ref w with
  | none => rfl
  | some sv =>
    by_cases h : t ≤ sv
    · simp [h]
    · simp [h]

/-- `filterMap` keeps as many elements as pass the `isSome` test. -/
theorem length_filterMap_eq_length_filter (f : WorkflowRow → Option SimilarEntry)
    (l : List WorkflowRow) :
    (l.filterMap f).length = (l.filter (fun a => (f a).isSome)).length := by
  induction l with
  | nil => rfl
  | cons a as ih =>
    rw [List.filterMap_cons, List.filter_cons]
    cases hf : f a with
    | none => simp [hf, ih]
    | some b => simp [hf, ih]

/-! ## Claim C8 -/

/-- C8, amended: whenever `findSimilar` returns a result, `total_found`
counts exactly the candidates (records other than the reference) whose exact
combined score reaches the threshold — not only the returned ones; the
returned page is the first 20 of the qualifying candidates sorted descending
by the REPORTED `similarity_score`, which is the combined score rounded to two
decimals (`Math.round(s*100)/100`, ties keeping store order under the stable
sort) — not by the exact combined score, see the counterexample; and every
returned entry carries its candidate's rounded combined score and the list of
integrations shared with the reference. -/
theorem c8_amended (db : DBState) (fn : String) (t : ℚ) (res : SimilarResult)
    (h : findSimilar db fn t = some res) :
    ∃ ref, db.workflows.find? (fun r => r.filename = fn) = some ref ∧
      res.total_found = ((db.workflows.filter (fun r => r.filename ≠ fn)).filter
          (fun w => simAtLeast (candidateScore ref w) t)).length ∧
      res.similar_workflows.length = min 20 res.total_found ∧
      res.similar_workflows.Pairwise
        (fun a b => b.similarity_score ≤ a.similarity_score) ∧
      ∀ entry ∈ res.similar_workflows, ∃ w, w ∈ db.workflows ∧ w.filename ≠ fn ∧
        simAtLeast (candidateScore ref w) t = true ∧
        ∃ sv, candidateScore ref w = some sv ∧ t ≤ sv ∧
          entry = { filename := w.filename
                    name := w.name
                    similarity_score := round2 sv
                    shared_integrations :=
                      ref.integrations.filter (fun i => w.integrations.contains i)
                    trigger_type := w.trigger_type
                    node_count := w.node_count } := by
  cases hfind : db.workflows.find? (fun r => r.filename = fn) with
  | none =>
    rw [findSimilar, hfind] at h
    cases h
  | some ref =>
    rw [findSimilar, hfind] at h
    dsimp only at h
    injection h with h
    subst h
    refine ⟨ref, rfl, ?_, ?_, ?_, ?_⟩
    · show ((db.workflows.filter (fun r => r.filename ≠ fn)).filterMap
          (fun w => candidateEntry ref w t)).length = _
      rw [length_filterMap_eq_length_filter]
      congr 1
      apply List.filter_congr
      intro w _
      exact candidateEntry_isSome ref w t
    · show ((((db.workflows.filter (fun r => r.filename ≠ fn)).filterMap
          (fun w => candidateEntry ref w t)).insertionSort scoreGE).take 20).length = _
      rw [List.length_take, (List.perm_insertionSort scoreGE _).length_eq]
    · have hs := List.sorted_insertionSort scoreGE
        ((db.workflows.filter (fun r => r.filename ≠ fn)).filterMap
          (fun w => candidateEntry ref w t))
      exact List.Pairwise.sublist (List.take_sublist 20 _) hs
    · intro entry hentry
      have hmem1 : entry ∈ ((db.workflows.filter (fun r => r.filename ≠ fn)).filterMap
          (fun w => candidateEntry ref w t)).insertionSort scoreGE :=
        (List.take_sublist 20 _).subset hentry
      have hmem2 : entry ∈ (db.workflows.filter (fun r => r.filename ≠ fn)).filterMap
          (fun w => candidateEntry ref w t) :=
        (List.perm_insertionSort scoreGE _).subset hmem1
      obtain ⟨w, hwmem, hfw⟩ := List.mem_filterMap.mp hmem2
      have hwdb : w ∈ db.workflows := (List.mem_filter.mp hwmem).1
      have hwfn : w.filename ≠ fn := of_decide_eq_true (List.mem_filter.mp hwmem).2
      unfold candidateEntry at hfw
      cases hcs : candidateScore ref w with
      | none =>
        rw [hcs] at hfw
        cases hfw
      | some sv =>
        rw [hcs] at hfw
        dsimp only at hfw
        by_cases hle : t ≤ sv
        · rw [if_pos hle] at hfw
          injection hfw with hfw
          refine ⟨w, hwdb, hwfn, ?_, sv, hcs, hle, hfw.symm⟩
          simp [simAtLeast, hcs, hle]
        · rw [if_neg hle] at hfw
          cases hfw

/-- Reference record for the `findSimilar` witness. -/
def simRefRow : WorkflowRow :=
  { filename := "ref.json", name := "Ref", workflow_id := "", active := true
    description := "", trigger_type := "Webhook", complexity := "low", node_count := 5
    integrations := ["Slack", "Hubspot"], tags := [], created_at := "", updated_at := ""
    file_hash := "r1", file_size := 1 }

/-- An identical-profile candidate record. -/
def simCandRow : WorkflowRow :=
  { simRefRow with filename := "cand.json", name := "Cand", file_hash := "c1" }

/-- A two-record store for the `findSimilar` witness. -/
def simDemoDb : DBState :=
  ⟨[simRefRow, simCandRow], []⟩

/-- The entry `findSimilar` produces for the identical-profile candidate:
combined score `1`, all integrations shared. -/
def simDemoEntry : SimilarEntry :=
  { filename := "cand.json", name := "Cand", similarity_score := 1
    shared_integrations := ["Slack", "Hubspot"], trigger_type := "Webhook", node_count := 5 }

/-- The full response of `findSimilar simDemoDb "ref.json" 0`. -/
def simDemoResult : SimilarResult :=
  { ref_filename := "ref.json", ref_name := "Ref"
    ref_integrations := ["Slack", "Hubspot"], ref_node_count := 5
    similar_workflows := [simDemoEntry], total_found := 1 }

/-- C8, witness: the amended theorem applied to the concrete two-record
store, the reference `ref.json` and threshold `0`, whose response is computed
explicitly. -/
theorem c8_amended_witness :
    findSimilar simDemoDb "ref.json" 0 = some simDemoResult ∧
    (∃ ref, simDemoDb.workflows.find? (fun r => r.filename = "ref.json") = some ref ∧
      simDemoResult.total_found
          = ((simDemoDb.workflows.filter (fun r => r.filename ≠ "ref.json")).filter
            (fun w => simAtLeast (candidateScore ref w) 0)).length ∧
      simDemoResult.similar_workflows.length = min 20 simDemoResult.total_found ∧
      simDemoResult.similar_workflows.Pairwise
        (fun a b => b.similarity_score ≤ a.similarity_score) ∧
      ∀ entry ∈ simDemoResult.similar_workflows, ∃ w, w ∈ simDemoDb.workflows ∧
        w.filename ≠ "ref.json" ∧
        simAtLeast (candidateScore ref w) 0 = true ∧
        ∃ sv, candidateScore ref w = some sv ∧ 0 ≤ sv ∧
          entry = { filename := w.filename
                    name := w.name
                    similarity_score := round2 sv
                    shared_integrations :=
                      ref.integrations.filter (fun i => w.integrations.contains i)
                    trigger_type := w.trigger_type
                    node_count := w.node_count }) :=
  ⟨by with_unfolding_all decide,
    c8_amended simDemoDb "ref.json" 0 simDemoResult (by with_unfolding_all decide)⟩

/-- Reference record of the C8 counterexample: 200 nodes, no integrations. -/
def c8CtrRefRow : WorkflowRow :=
  { filename := "ref.json", name := "Ref", workflow_id := "", active := true
    description := "", trigger_type := "Webhook", complexity := "high", node_count := 200
    integrations := [], tags := [], created_at := "", updated_at := ""
    file_hash := "r2", file_size := 1 }

/-- First candidate: 198 nodes, exact combined score `0.497`. -/
def c8CtrRowA : WorkflowRow :=
  { c8CtrRefRow with filename := "a.json", name := "A", node_count := 198, file_hash := "a2" }

/-- Second candidate: 199 nodes, exact combined score `0.4985`. -/
def c8CtrRowB : WorkflowRow :=
  { c8CtrRefRow with filename := "b.json", name := "B", node_count := 199, file_hash := "b2" }

/-- The C8 counterexample store, candidate A stored before candidate B. -/
def c8CtrDb : DBState :=
  ⟨[c8CtrRefRow, c8CtrRowA, c8CtrRowB], []⟩

/-- The entry returned for candidate A: reported score `0.50`. -/
def c8CtrEntryA : SimilarEntry :=
  { filename := "a.json", name := "A", similarity_score := 1 / 2
    shared_integrations := [], trigger_type := "Webhook", node_count := 198 }

/-- The entry returned for candidate B: also reported score `0.50`. -/
def c8CtrEntryB : SimilarEntry :=
  { filename := "b.json", name := "B", similarity_score := 1 / 2
    shared_integrations := [], trigger_type := "Webhook", node_count := 199 }

/-- The full response of `findSimilar c8CtrDb "ref.json" 0`. -/
def c8CtrResult : SimilarResult :=
  { ref_filename := "ref.json", ref_name := "Ref"
    ref_integrations := [], ref_node_count := 200
    similar_workflows := [c8CtrEntryA, c8CtrEntryB], total_found := 2 }

set_option maxRecDepth 4000 in
/-- C8, counterexample: `findSimilar` returns candidate A (exact combined
score `497/1000 = 0.497`) STRICTLY BEFORE candidate B (exact combined score
`997/2000 = 0.4985`), because both round to the reported score `0.50`
(`Math.round(49.7) = Math.round(49.85) = 50`) and the stable sort keeps store
order within the tie — so the returned list is ascending, not descending, in
the exact combined score of the claim's formula, refuting the claimed sort
order (and, with 21+ candidates straddling such a tie, even the top-20
membership the claim's order would dictate). -/
theorem c8_counterexample :
    findSimilar c8CtrDb "ref.json" 0 = some c8CtrResult ∧
    c8CtrResult.similar_workflows = [c8CtrEntryA, c8CtrEntryB] ∧
    c8CtrEntryA.filename = "a.json" ∧
    c8CtrEntryB.filename = "b.json" ∧
    candidateScore c8CtrRefRow c8CtrRowA = some (497 / 1000) ∧
    candidateScore c8CtrRefRow c8CtrRowB = some (997 / 2000) ∧
    (497 : ℚ) / 1000 < 997 / 2000 ∧
    round2 (497 / 1000) = 1 / 2 ∧
    round2 (997 / 2000) = 1 / 2 := by
  with_unfolding_all decide

/-! ## Query engine (`searchWorkflows`, `src/database.js:360-417`) -/

/-- The SQL template of the FTS branch of `searchWorkflows`
(`src/database.js:372-376`), verbatim with its template-literal whitespace. -/
def ftsJoinSql : String :=
  "\n        SELECT w.* FROM workflows w\n        JOIN workflows_fts fts ON w.filename = fts.filename\n        WHERE workflows_fts MATCH ?\n      "

/-- The SQL of the filters-only branch (`src/database.js:380`). -/
def plainSelectSql : String :=
  "SELECT * FROM workflows WHERE 1=1"

/-- `sql.replace(/SELECT \*/, 'SELECT COUNT(*) as total')`
(`src/database.js:399`): the regex matches exactly the literal text
`SELECT *`, and `replace` rewrites the first occurrence. -/
def countSqlOf (sql : String) : String :=
  replaceFirst sql "SELECT *" "SELECT COUNT(*) as total"

/-- The filters-only SQL does contain `SELECT *`, so its count statement is a
real `SELECT COUNT(*) as total` query. -/
theorem countSql_plain :
    countSqlOf plainSelectSql = "SELECT COUNT(*) as total FROM workflows WHERE 1=1" := by
  decide

/-- The FTS-branch SQL reads `SELECT w.*` and contains no occurrence of
`SELECT *`, so the `replace` leaves it unchanged and the "count" statement is
still the row-returning join, selecting no `total` column. -/
theorem countSql_fts :
    countSqlOf ftsJoinSql = ftsJoinSql ∧
    strContains (countSqlOf ftsJoinSql) "COUNT(*) as total" = false := by
  decide

/-- Outcome of `countStmt.get(...params)` followed by the destructuring
`const { total } = row`, for the two statement shapes `searchWorkflows`
builds: a `SELECT COUNT(*) as total` statement yields one row whose `total`
column is the number of matching rows; a statement still of the row-returning
shape yields its first matching row, which has no `total` column, so the
destructured `total` is `undefined` (modeled `none`) — and when no row matches
at all, `.get` returns `undefined` and destructuring it throws a `TypeError`
(modeled as an error result). -/
def runCountGet (sql : String) (matchCount : Nat) : Except String (Option Nat) :=
  if strContains sql "COUNT(*) as total" then Except.ok (some matchCount)
  else if matchCount = 0 then Except.error "TypeError: cannot destructure"
  else Except.ok none

/-- `ORDER BY name` ascending (SQLite memcmp order on these ASCII names). -/
def nameLE (a b : WorkflowRow) : Prop :=
  strLtL b.name.data a.name.data = false

instance : DecidableRel nameLE :=
  fun a b => inferInstanceAs (Decidable (_ = false))

/-- What `searchWorkflows` returns: the page of rows and the destructured
`total` (which JS leaves `undefined`, here `none`, when the count statement
selected no `total` column). -/
structure SearchResult where
  workflows : List WorkflowRow
  total : Option Nat
deriving Repr, DecidableEq

deriving instance DecidableEq for Except

/-- `searchWorkflows(query, triggerFilter, complexityFilter, activeOnly,
limit, offset)` (`src/database.js:360-417`). The evaluation of
`workflows_fts MATCH <buildFTSQuery(query)>` joined back on filename is passed
in abstractly as the row predicate `txtMatch`; the counting and slicing logic
under scrutiny is independent of it. -/
def searchWorkflows (db : DBState) (query : String) (txtMatch : WorkflowRow → Bool)
    (triggerFilter complexityFilter : String) (activeOnly : Bool)
    (lim off : Nat) : Except String SearchResult :=
  let usesFts := trimStr query ≠ ""
  let sql := if usesFts then ftsJoinSql else plainSelectSql
  let base := if usesFts then db.workflows.filter txtMatch else db.workflows
  let rows := base.filter (fun w =>
    (triggerFilter == "all" || w.trigger_type == triggerFilter) &&
    (complexityFilter == "all" || w.complexity == complexityFilter) &&
    (!activeOnly || w.active))
  match runCountGet (countSqlOf sql) rows.length with
  | Except.error e => Except.error e
  | Except.ok tot => Except.ok ⟨((rows.insertionSort nameLE).drop off).take lim, tot⟩

/-- `pages = Math.ceil(total / perPage)` of the HTTP layer
(`src/http-server.js:342`): `undefined / n` is NaN and `Math.ceil(NaN)` is
NaN (`none`); otherwise ceiling division. -/
def pagesOf (total : Option Nat) (perPage : Nat) : Option Nat :=
  total.map (fun t => (t + perPage - 1) / perPage)

/-! ## Claim C3 -/

/-- The one indexed record of the C3 evaluation store. -/
def c3Row : WorkflowRow :=
  { filename := "t.json", name := "Telegram Bot", workflow_id := "", active := true
    description := "Webhook workflow integrating Telegram with 2 nodes (low complexity)"
    trigger_type := "Webhook", complexity := "low", node_count := 2
    integrations := ["Telegram"], tags := [], created_at := "", updated_at := ""
    file_hash := "t1", file_size := 5 }

/-- The C3 evaluation store. -/
def c3Db : DBState :=
  ⟨[c3Row], [shadowOf c3Row]⟩

/-- C3, evaluation at the failing input: searching the one-record store for
the non-empty query `telegram` (whose FTS predicate matches the record)
returns the row but `total = undefined` (`none`), NOT the matching count `1`,
because the `/SELECT \*/` replacement does not match the FTS branch's
`SELECT w.*` text; the HTTP layer's `pages` is then NaN; the same non-empty
query matching nothing throws a `TypeError`; and only the empty-query branch
returns the correct `total = 1`. -/
theorem c3_bug_eval :
    searchWorkflows c3Db "telegram" (fun w => strContains (toLowerStr w.name) "telegram")
        "all" "all" false 10 0
      = Except.ok ⟨[c3Row], none⟩ ∧
    (c3Db.workflows.filter (fun w => strContains (toLowerStr w.name) "telegram")).length = 1 ∧
    pagesOf none 10 = none ∧
    searchWorkflows c3Db "nosuchterm" (fun _ => false) "all" "all" false 10 0
      = Except.error "TypeError: cannot destructure" ∧
    searchWorkflows c3Db "" (fun _ => false) "all" "all" false 10 0
      = Except.ok ⟨[c3Row], some 1⟩ := by
  decide

end NW
